import Mathlib

/-!
Formal model of the data-pipeline core of `app.py` (Demand Analysis JC):
Google Trends fetch-and-clean, seasonal-period inference, STL decomposition
plumbing, tabular assembly, and the run block's validation and error handling.

Timestamps are modelled at day granularity as integers (the source converts
nanosecond datetimes to whole days before using them), numeric cell values as
integers, dataframes as a list of column names together with a list of rows,
and the external collaborators (the pytrends HTTP fetch and the statsmodels
STL call) as opaque function parameters.
-/

namespace JCDemand

/-- Timestamps at day granularity, as in
`np.diff(dt_index.values).astype("timedelta64[D]")`. -/
abbrev Ts := Int

/-- Consecutive differences of a list, modelling `np.diff`. -/
def diffs : List Int → List Int
  | a :: b :: t => (b - a) :: diffs (b :: t)
  | _ => []

/-- Integer median as computed by `int(np.median(xs))`: sort, take the middle
element for odd length, and for even length the mean of the two middle
elements truncated toward zero (Python `int()` truncates the float mean). -/
def npMedianInt (l : List Int) : Int :=
  let s := l.insertionSort (· ≤ ·)
  let n := s.length
  if n % 2 = 1 then s.getD (n / 2) 0
  else Int.tdiv (s.getD (n / 2 - 1) 0 + s.getD (n / 2) 0) 2

/-- Model of `infer_period` (app.py lines 73–84): infer the STL seasonal
period from the median sampling interval in days. -/
def infer_period (dt_index : List Ts) : Int :=
  if dt_index.length < 3 then 12
  else
    let deltas := diffs dt_index
    let med := npMedianInt deltas
    if med ≤ 1 then 7
    else if med ≤ 7 then 52
    else 12

/-- Claim C1: period inference returns 12 on fewer than 3 timestamps, and
otherwise classifies the integer median `med` of the consecutive day-gaps as
7 when med ≤ 1, 52 when 1 < med ≤ 7, and 12 when med > 7, with the
boundaries med = 1 and med = 7 falling in the stated classes. -/
theorem infer_period_classification (ts : List Ts) :
    (ts.length < 3 → infer_period ts = 12) ∧
    (3 ≤ ts.length →
      (npMedianInt (diffs ts) ≤ 1 → infer_period ts = 7) ∧
      (1 < npMedianInt (diffs ts) ∧ npMedianInt (diffs ts) ≤ 7 →
        infer_period ts = 52) ∧
      (7 < npMedianInt (diffs ts) → infer_period ts = 12)) := by
  unfold infer_period
  constructor
  · intro h
    simp [h]
  · intro h
    have h3 : ¬ ts.length < 3 := by omega
    refine ⟨fun h1 => ?_, fun h2 => ?_, fun h7 => ?_⟩ <;>
      simp only [h3, if_false, if_neg] <;> split_ifs <;> omega

/-- Witness for C1 at the boundary inputs: 2 timestamps → 12; median gap
exactly 1 → 7; exactly 7 → 52; gap 8 → 12. -/
theorem infer_period_classification_witness :
    infer_period [0, 1] = 12 ∧ infer_period [0, 1, 2] = 7 ∧
    infer_period [0, 7, 14] = 52 ∧ infer_period [0, 8, 16] = 12 :=
  ⟨(infer_period_classification [0, 1]).1 (by decide),
   ((infer_period_classification [0, 1, 2]).2 (by decide)).1 (by decide),
   ((infer_period_classification [0, 7, 14]).2 (by decide)).2.1 (by decide),
   ((infer_period_classification [0, 8, 16]).2 (by decide)).2.2 (by decide)⟩

/-- Claim C8: period inference is deterministic and pure — it is a function
of the timestamp sequence alone, so identical sequences yield identical
periods (purity is inherent to the functional model: `infer_period` reads and
writes no state). -/
theorem infer_period_deterministic (t1 t2 : List Ts) (h : t1 = t2) :
    infer_period t1 = infer_period t2 := by rw [h]

/-- Witness for C8 at a concrete pair of identical sequences. -/
theorem infer_period_deterministic_witness :
    infer_period [0, 1, 2] = infer_period [0, 1, 2] :=
  infer_period_deterministic [0, 1, 2] [0, 1, 2] rfl

/-- Claim C9: period inference is total and always returns a positive
integer: every branch yields 7, 12 or 52 and no error branch exists. -/
theorem infer_period_pos (ts : List Ts) : 0 < infer_period ts := by
  unfold infer_period
  dsimp only
  split_ifs <;> norm_num

/-- Model of a pandas DataFrame with a datetime index: a list of column
names and a list of rows, each row a timestamp with one value per column. -/
structure DFrame where
  colNames : List String
  rows : List (Ts × List Int)
deriving DecidableEq

/-- Ordering of rows by timestamp, used by `df.sort_index()`. -/
def byTs (a b : Ts × List Int) : Prop := a.1 ≤ b.1

instance : DecidableRel byTs := fun a b => inferInstanceAs (Decidable (a.1 ≤ b.1))

instance : IsTotal (Ts × List Int) byTs := ⟨fun a b => le_total a.1 b.1⟩

instance : IsTrans (Ts × List Int) byTs := ⟨fun _ _ _ h1 h2 => le_trans h1 h2⟩

/-- Model of `df.drop(columns=[c])`: removes every column labelled `c` from
the column names and from each row. -/
def dropColAll (df : DFrame) (c : String) : DFrame :=
  ⟨df.colNames.filter (fun s => s != c),
   df.rows.map (fun r =>
     (r.1, ((df.colNames.zip r.2).filter (fun p => p.1 != c)).map Prod.snd))⟩

/-- Model of the cleaning in `fetch_trends` (app.py lines 61–71): return the
frame unchanged when empty, otherwise drop the last row, drop the
`isPartial` column when present, coerce the index to timestamps (identity in
this model) and sort ascending by timestamp. -/
def fetch_trends_clean (df : DFrame) : DFrame :=
  if df.rows.isEmpty then df
  else
    let df1 : DFrame := ⟨df.colNames, df.rows.dropLast⟩
    let df2 := if df1.colNames.contains "isPartial" then dropColAll df1 "isPartial" else df1
    ⟨df2.colNames, df2.rows.insertionSort byTs⟩

/-- Filtering out a label leaves a list that no longer contains it. -/
theorem contains_filter_bne (c : String) (l : List String) :
    (l.filter (fun s => s != c)).contains c = false := by
  induction l with
  | nil => rfl
  | cons a t ih =>
    by_cases h : a = c
    · simp [List.filter_cons, h, ih]
    · simp [List.filter_cons, h, List.contains_cons, Ne.symm h, ih]

/-- Claim C2: cleaning drops the final row unconditionally and the
completeness flag column when present, so the output has at most N − 1 rows;
the output is empty when the source returns no rows and when only the
trailing row was present. -/
theorem fetch_trends_clean_shape (df : DFrame) :
    (fetch_trends_clean df).rows.length ≤ df.rows.length - 1 ∧
    (df.rows.isEmpty = true → (fetch_trends_clean df).rows = []) ∧
    (df.rows.length = 1 → (fetch_trends_clean df).rows = []) ∧
    (df.rows.isEmpty = false →
      (fetch_trends_clean df).colNames.contains "isPartial" = false) := by
  by_cases he : df.rows.isEmpty
  · have hnil : df.rows = [] := List.isEmpty_iff.mp he
    refine ⟨?_, fun _ => ?_, fun h1 => ?_, fun hf => ?_⟩
    · simp [fetch_trends_clean, he, hnil]
    · simp [fetch_trends_clean, he, hnil]
    · exact absurd h1 (by simp [hnil])
    · exact absurd hf (by simp [he])
  · have hrw : fetch_trends_clean df =
        (let df1 : DFrame := ⟨df.colNames, df.rows.dropLast⟩
         let df2 := if df1.colNames.contains "isPartial" then
           dropColAll df1 "isPartial" else df1
         ⟨df2.colNames, df2.rows.insertionSort byTs⟩) := by
      simp [fetch_trends_clean, he]
    refine ⟨?_, fun h0 => absurd h0 (by simpa using he), fun h1 => ?_, fun _ => ?_⟩
    · rw [hrw]
      dsimp only
      split_ifs with hp
      · simp [dropColAll, List.length_insertionSort, List.length_dropLast]
      · simp [List.length_insertionSort, List.length_dropLast]
    · rw [hrw]
      dsimp only
      have hd : df.rows.dropLast = [] := by
        have h0 : df.rows.dropLast.length = 0 := by
          rw [List.length_dropLast, h1]
        exact List.eq_nil_of_length_eq_zero h0
      split_ifs with hp <;> simp [dropColAll, hd]
    · rw [hrw]
      dsimp only
      split_ifs with hp
      · exact contains_filter_bne "isPartial" df.colNames
      · simpa using hp

/-- Witness for C2: a one-row frame cleans to the empty series. -/
theorem fetch_trends_clean_shape_witness :
    (fetch_trends_clean ⟨["dog"], [((0 : Ts), [(1 : Int)])]⟩).rows = [] :=
  (fetch_trends_clean_shape ⟨["dog"], [((0 : Ts), [(1 : Int)])]⟩).2.2.1 rfl

/-- Dropping columns does not change the timestamps of the rows. -/
theorem map_fst_dropColAll (df : DFrame) (c : String) :
    (dropColAll df c).rows.map Prod.fst = df.rows.map Prod.fst := by
  simp [dropColAll, List.map_map, Function.comp]

/-- A concrete frame with distinct timestamps, cleaning to three rows. -/
def dfABC : DFrame :=
  ⟨["dog"], [((0 : Ts), [(3 : Int)]), (1, [4]), (2, [5]), (3, [6])]⟩

/-- A concrete frame whose first two timestamps coincide. -/
def dfDup : DFrame :=
  ⟨["dog"], [((0 : Ts), [(1 : Int)]), (0, [1]), (5, [2])]⟩

/-- Counterexample to claim C3 as stated: the cleaning step sorts by
timestamp but never deduplicates, so a raw table with a repeated timestamp
yields a non-empty cleaned series whose timestamps are not strictly
increasing. -/
theorem fetch_trends_clean_not_strict :
    (fetch_trends_clean dfDup).rows ≠ [] ∧
    ¬ List.Pairwise (fun a b : Ts => a < b)
        ((fetch_trends_clean dfDup).rows.map Prod.fst) := by decide

/-- Claim C3 (amended): the timestamps of every cleaned series are sorted
ascending (non-decreasing), and they are strictly increasing with no
duplicates provided the raw table's timestamps are pairwise distinct. -/
theorem fetch_trends_clean_sorted (df : DFrame) :
    List.Sorted (· ≤ ·) ((fetch_trends_clean df).rows.map Prod.fst) ∧
    ((df.rows.map Prod.fst).Nodup →
      List.Pairwise (fun a b : Ts => a < b)
        ((fetch_trends_clean df).rows.map Prod.fst)) := by
  by_cases he : df.rows.isEmpty = true
  · have hnil : df.rows = [] := List.isEmpty_iff.mp he
    refine ⟨?_, fun _ => ?_⟩ <;> simp [fetch_trends_clean, he, hnil]
  · set L : List (Ts × List Int) :=
      if df.colNames.contains "isPartial" then
        (dropColAll ⟨df.colNames, df.rows.dropLast⟩ "isPartial").rows
      else df.rows.dropLast with hL
    have hrw : (fetch_trends_clean df).rows = L.insertionSort byTs := by
      rw [hL]
      unfold fetch_trends_clean
      rw [if_neg he]
      dsimp only
      split_ifs with hp <;> rfl
    have hmap : L.map Prod.fst = df.rows.dropLast.map Prod.fst := by
      rw [hL]
      split_ifs with hp
      · exact map_fst_dropColAll ⟨df.colNames, df.rows.dropLast⟩ "isPartial"
      · rfl
    have hsort : List.Sorted byTs (L.insertionSort byTs) :=
      List.sorted_insertionSort byTs L
    have hs2 : List.Pairwise (fun a b : Ts × List Int => a.1 ≤ b.1)
        (L.insertionSort byTs) := hsort
    have hmaple : List.Pairwise (fun a b : Ts => a ≤ b)
        ((L.insertionSort byTs).map Prod.fst) := List.pairwise_map.mpr hs2
    constructor
    · rw [hrw]
      exact hmaple
    · intro hnd
      have hsub : (df.rows.dropLast.map Prod.fst).Sublist (df.rows.map Prod.fst) :=
        (List.dropLast_sublist df.rows).map Prod.fst
      have hnd1 : (df.rows.dropLast.map Prod.fst).Nodup := hnd.sublist hsub
      have hpermmap : List.Perm ((L.insertionSort byTs).map Prod.fst)
          (L.map Prod.fst) := (List.perm_insertionSort byTs L).map Prod.fst
      have hnd2 : ((L.insertionSort byTs).map Prod.fst).Nodup := by
        rw [hpermmap.nodup_iff, hmap]
        exact hnd1
      rw [hrw]
      exact (hmaple.and hnd2).imp (fun hab => lt_of_le_of_ne hab.1 hab.2)

/-- Witness for C3 (amended) at a concrete frame with distinct timestamps. -/
theorem fetch_trends_clean_sorted_witness :
    List.Pairwise (fun a b : Ts => a < b)
      ((fetch_trends_clean dfABC).rows.map Prod.fst) :=
  (fetch_trends_clean_sorted dfABC).2 (by decide)

/-- Python whitespace characters recognised by `str.strip()`: every
character for which `str.isspace()` holds — the ASCII whitespace
U+0009–U+000D and U+0020, the separators U+001C–U+001F, and the Unicode
whitespace U+0085, U+00A0, U+1680, U+2000–U+200A, U+2028, U+2029, U+202F,
U+205F and U+3000. -/
def pyIsSpace (c : Char) : Bool :=
  let n := c.toNat
  decide ((0x09 ≤ n ∧ n ≤ 0x0d) ∨ (0x1c ≤ n ∧ n ≤ 0x1f) ∨ n = 0x20 ∨
    n = 0x85 ∨ n = 0xa0 ∨ n = 0x1680 ∨ (0x2000 ≤ n ∧ n ≤ 0x200a) ∨
    n = 0x2028 ∨ n = 0x2029 ∨ n = 0x202f ∨ n = 0x205f ∨ n = 0x3000)

/-- Model of Python `str.strip()`: remove leading and trailing whitespace. -/
def pystrip (s : String) : String :=
  ⟨((s.data.dropWhile pyIsSpace).reverse.dropWhile pyIsSpace).reverse⟩

/-- Model of `kw.strip().replace(' ', '_')`: replace every space. -/
def replaceSpaceUnderscore (s : String) : String :=
  ⟨s.data.map (fun c => if c == ' ' then '_' else c)⟩

/-- Model of `df[c]` on a frame with a datetime index: the series of
(timestamp, value) pairs of the column labelled `c`. -/
def DFrame.getCol (df : DFrame) (c : String) : List (Ts × Int) :=
  match df.colNames.findIdx? (fun s => s == c) with
  | none => []
  | some i => df.rows.map (fun r => (r.1, r.2.getD i 0))

/-- Model of the `df_plot` table (app.py lines 136–142): a header and one
row per date holding date, original, trend, seasonal and remainder. -/
structure ResultTable where
  header : List String
  rows : List (Ts × Int × Int × Int × Int)
deriving DecidableEq

/-- Model of building `df_plot` from the series and the three decomposition
components, all aligned by the shared date index. -/
def df_plot (y : List (Ts × Int)) (trend seasonal resid : List Int) : ResultTable :=
  ⟨["date", "original", "trend", "seasonal", "remainder"],
   (y.zip (trend.zip (seasonal.zip resid))).map
     (fun p => (p.1.1, p.1.2, p.2.1, p.2.2.1, p.2.2.2))⟩

/-- Rendering of one CSV row of `df_plot.to_csv(index=False)`. -/
def rowCsv (r : Ts × Int × Int × Int × Int) : String :=
  toString r.1 ++ "," ++ toString r.2.1 ++ "," ++ toString r.2.2.1 ++ "," ++
    toString r.2.2.2.1 ++ "," ++ toString r.2.2.2.2

/-- Model of `df_plot.to_csv(index=False)`: a header line and one line per
row. -/
def ResultTable.toCsv (t : ResultTable) : String :=
  String.intercalate "," t.header ++ "\n" ++
    String.join (t.rows.map (fun r => rowCsv r ++ "\n"))

/-- Terminal error kinds of the run block (app.py lines 102–133). -/
inductive RunError where
  | invalidInput
  | fetchFailure (msg : String)
  | emptyResult
  | columnMismatch (col : String)
  | decompositionFailure (msg : String)
deriving DecidableEq

/-- Observable output of a successful run: chart title, assembled table,
exported CSV text and download filename. -/
structure RunOutput where
  title : String
  table : ResultTable
  csv : String
  fileName : String
deriving DecidableEq

/-- Model of `fetch_trends` (app.py lines 50–71): the external pytrends call
is an opaque function that may fail; its result is cleaned by
`fetch_trends_clean`. -/
def fetch_trends (fetchRaw : String → Except String DFrame) (keyword : String) :
    Except String DFrame :=
  (fetchRaw keyword).map fetch_trends_clean

/-- Model of the run block (app.py lines 102–154): validate the keyword,
fetch and clean, check emptiness and the keyword column, infer the period,
decompose via the opaque `stl` call, and assemble title, table, CSV and
filename — every use of the keyword goes through `pystrip`. -/
def runPipeline (kw : String)
    (fetchRaw : String → Except String DFrame)
    (stl : List (Ts × Int) → Int → Except String (List Int × List Int × List Int)) :
    Except RunError RunOutput :=
  let k := pystrip kw
  if k = "" then .error .invalidInput
  else
    match fetch_trends fetchRaw k with
    | .error e => .error (.fetchFailure e)
    | .ok df =>
      if df.rows.isEmpty then .error .emptyResult
      else if df.colNames.contains k then
        let y := df.getCol k
        let period := infer_period (y.map Prod.fst)
        match stl y period with
        | .error e => .error (.decompositionFailure e)
        | .ok (t, s, r) =>
          let tbl := df_plot y t s r
          .ok { title := "STL Decomposition — " ++ k ++ " — Google Trends (US, last 5y)",
                table := tbl,
                csv := tbl.toCsv,
                fileName := "stl_" ++ replaceSpaceUnderscore k ++ ".csv" }
      else .error (.columnMismatch k)

/-- Claim C5: given the components aligned to the series (the decomposition
collaborator's alignment guarantee), the assembled table has exactly one row
per date of the input series and its column set is exactly
date, original, trend, seasonal, remainder. -/
theorem df_plot_shape (y : List (Ts × Int)) (t s r : List Int)
    (ht : t.length = y.length) (hs : s.length = y.length)
    (hr : r.length = y.length) :
    (df_plot y t s r).rows.length = y.length ∧
    (df_plot y t s r).header = ["date", "original", "trend", "seasonal", "remainder"] := by
  refine ⟨?_, rfl⟩
  simp [df_plot, List.length_zip, ht, hs, hr]

/-- Witness for C5 at a concrete one-point series. -/
theorem df_plot_shape_witness :
    (df_plot [((0 : Ts), (1 : Int))] [0] [0] [0]).rows.length =
      [((0 : Ts), (1 : Int))].length ∧
    (df_plot [((0 : Ts), (1 : Int))] [0] [0] [0]).header =
      ["date", "original", "trend", "seasonal", "remainder"] :=
  df_plot_shape [((0 : Ts), (1 : Int))] [0] [0] [0] rfl rfl rfl

/-- Claim C7: a keyword that is empty after stripping is rejected with
InvalidInput before any fetch: the result is the same for every fetch and
decomposition collaborator. -/
theorem run_invalidInput (kw : String)
    (fetchRaw : String → Except String DFrame)
    (stl : List (Ts × Int) → Int → Except String (List Int × List Int × List Int))
    (h : pystrip kw = "") :
    runPipeline kw fetchRaw stl = .error .invalidInput := by
  simp [runPipeline, h]

/-- Witness for C7 on a whitespace-only keyword mixing an ASCII space with
a no-break space and an ideographic space, with a concrete fetch. -/
theorem run_invalidInput_witness :
    runPipeline "  　" (fun _ => .ok dfABC) (fun _ _ => .ok ([], [], [])) =
      .error .invalidInput :=
  run_invalidInput "  　" (fun _ => .ok dfABC) (fun _ _ => .ok ([], [], []))
    (by decide)

/-- Claim C6: when the fetch succeeds with a non-empty cleaned result but
the trimmed keyword is not among its columns, the run reports
ColumnMismatch; the result is the same for every decomposition collaborator,
so neither period inference nor decomposition affects the run. -/
theorem run_columnMismatch (kw : String)
    (fetchRaw : String → Except String DFrame) (raw : DFrame)
    (stl : List (Ts × Int) → Int → Except String (List Int × List Int × List Int))
    (hk : pystrip kw ≠ "")
    (hf : fetchRaw (pystrip kw) = .ok raw)
    (hne : (fetch_trends_clean raw).rows.isEmpty = false)
    (hcol : (fetch_trends_clean raw).colNames.contains (pystrip kw) = false) :
    runPipeline kw fetchRaw stl = .error (.columnMismatch (pystrip kw)) := by
  have hcol' : pystrip kw ∉ (fetch_trends_clean raw).colNames := by
    simpa using hcol
  simp [runPipeline, fetch_trends, hk, hf, Except.map, hne, hcol']

/-- Witness for C6: a keyword absent from the fetched columns. -/
theorem run_columnMismatch_witness :
    runPipeline "cat" (fun _ => .ok dfABC) (fun _ _ => .ok ([], [], [])) =
      .error (.columnMismatch (pystrip "cat")) :=
  run_columnMismatch "cat" (fun _ => .ok dfABC) dfABC
    (fun _ _ => .ok ([], [], [])) (by decide) rfl (by decide) (by decide)

/-- Claim C10: the run depends on the keyword only through `pystrip`, so two
keywords equal after trimming produce identical fetch arguments, column
lookups, chart titles, CSV contents and filenames — identical run results. -/
theorem run_strip_insensitive (k1 k2 : String)
    (fetchRaw : String → Except String DFrame)
    (stl : List (Ts × Int) → Int → Except String (List Int × List Int × List Int))
    (h : pystrip k1 = pystrip k2) :
    runPipeline k1 fetchRaw stl = runPipeline k2 fetchRaw stl := by
  unfold runPipeline
  rw [h]

/-- Witness for C10 on two keywords differing only in outer whitespace, one
carrying a trailing no-break space. -/
theorem run_strip_insensitive_witness :
    runPipeline " dog" (fun _ => .ok dfABC) (fun _ _ => .ok ([], [], [])) =
      runPipeline "dog " (fun _ => .ok dfABC) (fun _ _ => .ok ([], [], [])) :=
  run_strip_insensitive " dog" "dog " (fun _ => .ok dfABC)
    (fun _ _ => .ok ([], [], [])) (by decide)

end JCDemand
